import Mathlib

/-!
Shallow embedding of the behavioral-discovery engine and pipeline state
machine of the gherkinscriptgenerator repository.

The embedding follows the source files:
  src/core/browser.py        (BrowserAutomation: scans, probes, snapshots)
  src/core/gherkin_generator.py (GherkinGenerator: output cleaning, fallbacks)
  src/orchestrator.py        (LangGraph workflow: nodes, routers, driver)

JavaScript evaluated inside the page (the `dynamic_hover_detection`,
`dynamic_popup_detection`, snapshot and modal-counting scripts and the
`getXPath` helper) is embedded over records that carry, per DOM node, the
values those scripts read at runtime (computed style, attributes, geometry);
document-global outcomes that the scripts compute by walking the CSSOM or
the ancestor chain (a matching `:hover` rule, a positioned ancestor with a
hidden child) are carried as per-node fields of the same records, since the
claims under verification do not depend on how those booleans were derived.
Fallible page operations are modelled with `Except`; Python functions that
catch internally and return defaults are total here, exactly as in the
source.
-/

/-! ## JavaScript value helpers -/

/-- Truthiness of a JavaScript string-or-null value: `null`/`undefined` and
the empty string are falsy. -/
def jsTruthy (o : Option String) : Bool :=
  match o with
  | none => false
  | some s => s ≠ ""

/-- Value of a JavaScript `a || b || ... || ''` chain over string-or-undefined
operands: the first truthy operand, defaulting to the empty string. -/
def firstTruthy : List (Option String) → String
  | [] => ""
  | none :: rest => firstTruthy rest
  | some s :: rest => if s = "" then firstTruthy rest else s

/-- JavaScript `String.prototype.includes`: substring containment. -/
def containsStr (hay needle : String) : Bool :=
  decide (needle.toList <:+: hay.toList)

/-- JavaScript `toLowerCase()`: character-wise lower-casing, written over
the string's character list so that concrete locator strings evaluate by
kernel reduction (extensionally the standard lower-casing map). -/
def jsToLower (s : String) : String :=
  ⟨s.data.map Char.toLower⟩

/-- JavaScript `x || null` applied to a string property: an absent or empty
value becomes `null`. -/
def jsOrNull (o : Option String) : Option String :=
  match o with
  | none => none
  | some s => if s = "" then none else some s

/-- Left-strip of whitespace characters over a character list. -/
def ltrimChars : List Char → List Char
  | [] => []
  | c :: rest => if c.isWhitespace then ltrimChars rest else c :: rest

/-- Python `str.strip()`: whitespace removed from both ends (written over
the character list so concrete inputs evaluate by kernel reduction). -/
def pyStrip (s : String) : String :=
  ⟨(ltrimChars (ltrimChars s.data).reverse).reverse⟩

/-- Python `str.rstrip()`: whitespace removed from the right end. -/
def pyRstrip (s : String) : String :=
  ⟨(ltrimChars s.data.reverse).reverse⟩

/-- Python `str.startswith(pre)`. -/
def pyStartsWith (s pre : String) : Bool :=
  pre.data.isPrefixOf s.data

/-- Fuel-indexed core of `pyReplace`: the fuel starts at the subject's
length and bounds the number of scanning steps, making the recursion
structural (and therefore kernel-computable); each step consumes at least
one subject character, so the fuel never runs out early. -/
def replaceChars (old new : List Char) : Nat → List Char → List Char
  | 0, hay => hay
  | _ + 1, [] => []
  | fuel + 1, c :: rest =>
    if old.isPrefixOf (c :: rest) && !old.isEmpty then
      new ++ replaceChars old new fuel ((c :: rest).drop old.length)
    else
      c :: replaceChars old new fuel rest

/-- Python `str.replace(old, new)`: every non-overlapping occurrence, left
to right (for a non-empty `old`; the embedded code only replaces non-empty
markers). -/
def pyReplace (s old new : String) : String :=
  ⟨replaceChars old.data new.data s.data.length s.data⟩

/-- Python `str.split('\n')`. -/
def splitNewlineAux : List Char → List Char → List String
  | [], acc => [⟨acc.reverse⟩]
  | c :: rest, acc =>
    if c = '\n' then ⟨acc.reverse⟩ :: splitNewlineAux rest []
    else splitNewlineAux rest (c :: acc)

def pySplitNewline (s : String) : List String :=
  splitNewlineAux s.data []

/-! ## Element Locator (the in-page `getXPath` helper)

The same helper appears twice in src/core/browser.py, once in the hover
scan (lines 98-125) and once in the popup scan (lines 386-404); both copies
are textually identical in behavior and are embedded once here.

A DOM element node carries its `nodeName` (tag), its `id` property (the
empty string when the attribute is absent, matching the DOM property), and
its element children. Non-element siblings (text, comment nodes) are not
modelled: the JavaScript walk skips every `previousSibling` whose
`nodeType` is not `ELEMENT_NODE`, so they never influence the computed
index. A node inside a document is addressed by the root element plus the
list of child indices from the root down to the node. -/

structure DomNode where
  tag : String
  id : String
  children : List DomNode

/-- Resolve a child-index path to the node it addresses. -/
def nodeAt : DomNode → List Nat → Option DomNode
  | n, [] => some n
  | n, i :: rest =>
    match n.children[i]? with
    | some c => nodeAt c rest
    | none => none

/-- Count of previous same-tag element siblings of the child at index `i`:
the JavaScript `index` accumulated over `previousSibling` nodes with
`sibling.nodeName === current.nodeName`. -/
def prevSameTagCount (siblings : List DomNode) (i : Nat) (tag : String) : Nat :=
  ((siblings.take i).filter (fun s => s.tag = tag)).length

/-- Path component emitted for the child at index `i` of sibling list
`siblings`: lower-cased tag name, suffixed with `[index + 1]` exactly when
`index > 0` (JavaScript: `index > 0 ? ...` with the suffix omitted for a
first same-tag sibling). -/
def xpathComponent (siblings : List DomNode) (i : Nat) (c : DomNode) : String :=
  let index := prevSameTagCount siblings i c.tag
  jsToLower c.tag ++ (if index > 0 then "[" ++ toString (index + 1) ++ "]" else "")

/-- Structural path components gathered below the root along a child-index
path. The source walks from the node up through `parentNode`, prepending
each component with `unshift`; walking down from the root and appending
yields the same root-first list. -/
def xpathParts : DomNode → List Nat → Option (List String)
  | _, [] => some []
  | n, i :: rest =>
    match n.children[i]? with
    | none => none
    | some c => (xpathParts c rest).map (fun ps => xpathComponent n.children i c :: ps)

/-- Embedding of the in-page `getXPath(element)` helper, for the node
addressed by `path` under the document's root element `root`. A node whose
`id` property is truthy gets a direct id reference; otherwise the ancestor
walk produces `'/' + parts.join('/')`. The root element's own component has
no previous element siblings (only the doctype or comments precede it in
the document), so its suffix is always omitted. -/
def getXPath (root : DomNode) (path : List Nat) : Option String :=
  match nodeAt root path with
  | none => none
  | some n =>
    if n.id ≠ "" then
      some ("//*[@id=\"" ++ n.id ++ "\"]")
    else
      (xpathParts root path).map
        (fun ps => "/" ++ String.intercalate "/" (jsToLower root.tag :: ps))

/-- The 1-based ordinal of the child at index `i` among its same-tag
siblings, as the spec describes the recorded value. -/
def siblingOrdinal (siblings : List DomNode) (i : Nat) (tag : String) : Nat :=
  prevSameTagCount siblings i tag + 1

/-- Path component as the spec words it: tag name plus 1-based same-tag
ordinal, rendered with the ordinal-one default omitted. -/
def specComponent (siblings : List DomNode) (i : Nat) (c : DomNode) : String :=
  let ord := siblingOrdinal siblings i c.tag
  jsToLower c.tag ++ (if ord = 1 then "" else "[" ++ toString ord ++ "]")

/-! ## Page Snapshot and the hover diff (src/core/browser.py 304-360) -/

/-- One visible interactive element recorded by the `_capture_page_state`
script: `el.innerText?.trim().substring(0, 100)` can be `undefined`, so the
text is an optional string. -/
structure SnapshotElem where
  text : Option String
  tag : String
  href : Option String
  visible : Bool
deriving Repr, DecidableEq

/-- Page Snapshot: visible interactive elements plus
`document.body.innerHTML.length`. -/
structure PageState where
  visible_elements : List SnapshotElem
  html_length : Nat
deriving Repr, DecidableEq

/-- Embedding of `_capture_page_state`: the in-page evaluation may raise, in
which case the bare `except` returns the empty snapshot. -/
def capture_page_state (raw : Except String PageState) : PageState :=
  match raw with
  | .ok s => s
  | .error _ => { visible_elements := [], html_length := 0 }

/-- Embedding of `_has_content_changed(before, after)`. -/
def has_content_changed (before after : PageState) : Bool :=
  let before_count := before.visible_elements.length
  let after_count := after.visible_elements.length
  if after_count > before_count then true
  else if after.html_length ≠ before.html_length then true
  else false

/-- Embedding of `_get_revealed_elements(before, after)`: elements of the
after-snapshot whose text is truthy and not among the before-snapshot
texts, limited to the first five. -/
def get_revealed_elements (before after : PageState) : List SnapshotElem :=
  let before_texts := before.visible_elements.map (fun e => e.text)
  ((after.visible_elements.filter
    (fun e => !(before_texts.contains e.text) && jsTruthy e.text)).take 5)

/-! ## Modal counting and the popup confirmation (src/core/browser.py 499-608) -/

/-- Description of one visible modal, as built by `_get_modal_details`. -/
structure ModalDetail where
  text : Option String
  className : String
  role : Option String
  hasCloseButton : Bool
deriving Repr, DecidableEq

/-- Embedding of `_count_modals`: the in-page count, or 0 when the
evaluation raised (the bare `except` returns 0). -/
def count_modals (raw : Except String Nat) : Nat :=
  match raw with
  | .ok n => n
  | .error _ => 0

/-- Embedding of `_get_modal_details`: the captured descriptions, or the
empty list when the evaluation raised. -/
def get_modal_details (raw : Except String (List ModalDetail)) : List ModalDetail :=
  match raw with
  | .ok l => l
  | .error _ => []

/-- The popup confirmation test from `analyze_popup_elements`:
Python `if after_modals > before_modals or modal_details:` where the list
is truthy exactly when non-empty. -/
def popup_confirmed (before_modals after_modals : Nat)
    (modal_details : List ModalDetail) : Bool :=
  decide (after_modals > before_modals) || !modal_details.isEmpty

/-! ## Static candidate scans (the in-page detection scripts)

A `ScanElem` records, for one DOM node visited by `querySelectorAll`, every
value the detection scripts read: properties (`tagName`, `id`, `className`,
`href`, `innerText`, `textContent`), the attribute list (from which
`hasAttribute`/`getAttribute` derive), the bounding rectangle, the computed
style values tested, and the two document-global boolean outcomes of
`hasHoverBehavior` (a matching `:hover` style rule found in the same-origin
style sheets; a positioned ancestor within 3 levels having a currently
hidden child). The `xpath` field is the locator string `getXPath(element)`
returns for the node (see the Element Locator model above). -/

structure ScanElem where
  tagName : String
  id : String
  className : String
  href : Option String
  innerText : Option String
  textContent : Option String
  attrs : List (String × String)
  width : Nat
  height : Nat
  x : Int
  y : Int
  display : String
  visibility : String
  opacity : String
  cursor : String
  matchesHoverRule : Bool
  positionedAncestorHiddenChild : Bool
  xpath : String
deriving Repr, DecidableEq

/-- JavaScript `element.getAttribute(name)`: the value, or `null`. -/
def getAttr (e : ScanElem) (name : String) : Option String :=
  (e.attrs.find? (fun a => a.1 = name)).map (fun a => a.2)

/-- JavaScript `element.hasAttribute(name)`. -/
def hasAttr (e : ScanElem) (name : String) : Bool :=
  e.attrs.any (fun a => a.1 = name)

/-- The hover scan's `isVisible(element)` (src/core/browser.py 128-137):
non-zero rendered box, not display-none, not visibility-hidden, opacity not
the string "0". -/
def isVisibleHover (e : ScanElem) : Bool :=
  decide (e.width > 0) && decide (e.height > 0) &&
  e.display ≠ "none" && e.visibility ≠ "hidden" && e.opacity ≠ "0"

/-- The popup scan's `isVisible(element)` (src/core/browser.py 406-412):
same as the hover version but without the opacity test. -/
def isVisiblePopup (e : ScanElem) : Bool :=
  decide (e.width > 0) && decide (e.height > 0) &&
  e.display ≠ "none" && e.visibility ≠ "hidden"

/-- The hover scan's `hasHoverBehavior(element)` (src/core/browser.py
140-193): pointer cursor, an inline mouse-event attribute, a matching
`:hover` style rule, or the hidden-dropdown ancestor heuristic. -/
def hasHoverBehavior (e : ScanElem) : Bool :=
  e.cursor = "pointer" ||
  hasAttr e "onmouseover" || hasAttr e "onmouseenter" || hasAttr e "onmouseleave" ||
  e.matchesHoverRule ||
  e.positionedAncestorHiddenChild

/-- Text resolved by the hover scan (src/core/browser.py 203-206):
`innerText?.trim() || textContent?.trim() || aria-label || title || ''`. -/
def hoverScanText (e : ScanElem) : String :=
  firstTruthy [e.innerText.map pyStrip, e.textContent.map pyStrip,
    getAttr e "aria-label", getAttr e "title"]

/-- One emitted hover candidate (the object pushed at src/core/browser.py
226-241). -/
structure HoverCandidate where
  tag : String
  text : String
  xpath : String
  className : String
  id : Option String
  href : Option String
  role : Option String
  ariaLabel : Option String
  x : Int
  y : Int
  width : Nat
  height : Nat
deriving Repr, DecidableEq

/-- The hover candidate built from a scanned element. -/
def mkHoverCandidate (e : ScanElem) (text : String) : HoverCandidate :=
  { tag := jsToLower e.tagName
    text := text.take 100
    xpath := e.xpath
    className := e.className
    id := jsOrNull (some e.id)
    href := jsOrNull e.href
    role := getAttr e "role"
    ariaLabel := getAttr e "aria-label"
    x := e.x
    y := e.y
    width := e.width
    height := e.height }

/-- The `allElements.forEach` body of the hover detection script
(src/core/browser.py 198-246), with `seenElements` threaded as the list of
already-emitted locators. -/
def hoverScanLoop : List ScanElem → List String → List HoverCandidate
  | [], _ => []
  | e :: rest, seen =>
    if !isVisibleHover e then hoverScanLoop rest seen
    else
      let tagName := jsToLower e.tagName
      let text := hoverScanText e
      if text = "" && tagName ≠ "img" && tagName ≠ "svg" then hoverScanLoop rest seen
      else if text.length > 200 then hoverScanLoop rest seen
      else if hasHoverBehavior e then
        if seen.contains e.xpath then hoverScanLoop rest seen
        else mkHoverCandidate e text :: hoverScanLoop rest (e.xpath :: seen)
      else hoverScanLoop rest seen

/-- The `dynamic_hover_detection` script: scan all elements, then
`hoverableElements.slice(0, 50)`. -/
def dynamic_hover_detection (allElements : List ScanElem) : List HoverCandidate :=
  (hoverScanLoop allElements []).take 50

/-- Keyword sets of `mightTriggerPopup` (src/core/browser.py 423-441). -/
def popupKeywords : List String :=
  ["modal", "popup", "dialog", "overlay", "toggle", "open", "show", "trigger"]

def textKeywords : List String :=
  ["learn more", "sign up", "login", "subscribe", "register", "join",
   "get started", "more info", "details", "view", "show", "open"]

/-- Names of the element's `data-*` attributes, lower-cased
(src/core/browser.py 419-421). -/
def dataAttrNames (e : ScanElem) : List String :=
  ((e.attrs.filter (fun a => a.1.startsWith "data-")).map (fun a => jsToLower a.1))

/-- The popup scan's `mightTriggerPopup(element)` (src/core/browser.py
414-448): inline click handler, a modal-suggesting `data-*` attribute name,
an `aria-expanded`/`aria-haspopup` attribute, or a call-to-action phrase in
the element's lower-cased text (`innerText || textContent || ''`, no
trimming in this helper). -/
def mightTriggerPopup (e : ScanElem) : Bool :=
  hasAttr e "onclick" ||
  (dataAttrNames e).any (fun attr => popupKeywords.any (fun kw => containsStr attr kw)) ||
  jsTruthy (getAttr e "aria-expanded") || jsTruthy (getAttr e "aria-haspopup") ||
  (let text := jsToLower (firstTruthy [e.innerText, e.textContent])
   textKeywords.any (fun kw => containsStr text kw))

/-- One emitted popup candidate (the object pushed at src/core/browser.py
469-484). -/
structure PopupCandidate where
  tag : String
  text : String
  xpath : String
  className : String
  id : Option String
  onclick : Option String
  dataAttrs : List (String × String)
  ariaHaspopup : Option String
  x : Int
  y : Int
deriving Repr, DecidableEq

/-- The popup candidate built from a scanned element. -/
def mkPopupCandidate (e : ScanElem) (text : String) : PopupCandidate :=
  { tag := jsToLower e.tagName
    text := text.take 100
    xpath := e.xpath
    className := e.className
    id := jsOrNull (some e.id)
    onclick := jsOrNull (getAttr e "onclick")
    dataAttrs := e.attrs.filter (fun a => a.1.startsWith "data-")
    ariaHaspopup := getAttr e "aria-haspopup"
    x := e.x
    y := e.y }

/-- Text resolved by the popup scan loop (src/core/browser.py 457-458):
`innerText?.trim() || textContent?.trim() || ''`. -/
def popupScanText (e : ScanElem) : String :=
  firstTruthy [e.innerText.map pyStrip, e.textContent.map pyStrip]

/-- The `clickables.forEach` body of the popup detection script
(src/core/browser.py 453-487), with `seenElements` threaded. -/
def popupScanLoop : List ScanElem → List String → List PopupCandidate
  | [], _ => []
  | e :: rest, seen =>
    if !isVisiblePopup e then popupScanLoop rest seen
    else
      let text := popupScanText e
      if text = "" || text.length > 100 then popupScanLoop rest seen
      else if mightTriggerPopup e then
        if seen.contains e.xpath then popupScanLoop rest seen
        else mkPopupCandidate e text :: popupScanLoop rest (e.xpath :: seen)
      else popupScanLoop rest seen

/-- The `dynamic_popup_detection` script: scan the clickable elements, then
`popupTriggers.slice(0, 30)`. -/
def dynamic_popup_detection (clickables : List ScanElem) : List PopupCandidate :=
  (popupScanLoop clickables []).take 30

/-! ## Configuration constants (src/core/config.py) -/

def MAX_HOVER_ELEMENTS : Nat := 20

def MAX_POPUP_ELEMENTS : Nat := 10

/-! ## Confirmation probes (src/core/browser.py 83-302, 362-546)

Each candidate probe interacts with the live page; the per-candidate
environment records the outcome of each page operation the loop body
performs, in program order. `Except.error` stands for a raised exception;
the per-candidate `try`/`except` turns any of them into a skip
(`continue`). The whole-pass environment records the outcome of the initial
in-page detection; the outer `try`/`except` of each analyzer turns a raised
detection into the empty result list. -/

/-- Page-operation outcomes for probing one hover candidate. -/
structure HoverProbeEnv where
  /-- The `query_selector` lookup: raised, or found-or-not. -/
  lookup : Except String Bool
  /-- Raw result of the before-hover `_capture_page_state` evaluation. -/
  beforeRaw : Except String PageState
  /-- The `element.hover()` interaction. -/
  hoverAct : Except String Unit
  /-- Raw result of the after-hover `_capture_page_state` evaluation. -/
  afterRaw : Except String PageState
  /-- The `page.mouse.move(0, 0)` reset; it runs after any append, so a
  raise here (swallowed by the same handler) cannot drop a confirmation. -/
  resetAct : Except String Unit

/-- A Confirmed Hover Element: the candidate's fields plus
`hover_confirmed: True` and the revealed elements. -/
structure ConfirmedHover where
  info : HoverCandidate
  hover_confirmed : Bool
  revealed_elements : List SnapshotElem
deriving Repr, DecidableEq

/-- Body of the hover confirmation loop (src/core/browser.py 259-295) for
one candidate: `none` means the candidate was skipped (not found, or an
operation raised), `some` a confirmed element appended to the result. -/
def probe_hover (cand : HoverCandidate) (env : HoverProbeEnv) : Option ConfirmedHover :=
  match env.lookup with
  | .error _ => none
  | .ok false => none
  | .ok true =>
    let before_snapshot := capture_page_state env.beforeRaw
    match env.hoverAct with
    | .error _ => none
    | .ok _ =>
      let after_snapshot := capture_page_state env.afterRaw
      if has_content_changed before_snapshot after_snapshot then
        some { info := cand
               hover_confirmed := true
               revealed_elements := get_revealed_elements before_snapshot after_snapshot }
      else none

/-- Whole-pass environment for `analyze_hover_elements`. -/
structure HoverPassEnv where
  /-- The `page.evaluate(dynamic_hover_detection)` call: raised, or the
  scanned element observations the script ran over. -/
  evalScan : Except String (List ScanElem)
  /-- Per-candidate probe outcomes, by candidate index. -/
  probes : Nat → HoverProbeEnv

/-- Embedding of `analyze_hover_elements`: run the detection script, cap
the candidate list at `MAX_HOVER_ELEMENTS`, probe each candidate in order,
keep the confirmed ones. A raised detection gives the empty list (outer
`except`); every per-candidate failure is a skip (inner `except`). -/
def analyze_hover_elements (env : HoverPassEnv) : List ConfirmedHover :=
  match env.evalScan with
  | .error _ => []
  | .ok allElements =>
    let potential := dynamic_hover_detection allElements
    ((potential.take MAX_HOVER_ELEMENTS).enum.filterMap
      (fun ci => probe_hover ci.2 (env.probes ci.1)))

/-- Page-operation outcomes for probing one popup candidate. -/
structure PopupProbeEnv where
  /-- The `query_selector` lookup: raised, or found-or-not. -/
  lookup : Except String Bool
  /-- Raw result of the before-click `_count_modals` evaluation. -/
  beforeModalsRaw : Except String Nat
  /-- The `element.click()` interaction. -/
  clickAct : Except String Unit
  /-- Raw result of the after-click `_count_modals` evaluation. -/
  afterModalsRaw : Except String Nat
  /-- Raw result of the `_get_modal_details` evaluation. -/
  detailsRaw : Except String (List ModalDetail)

/-- A Confirmed Popup Trigger: the candidate's fields plus
`popup_confirmed: True` and the modal descriptions. -/
structure ConfirmedPopup where
  info : PopupCandidate
  popup_confirmed : Bool
  popup_details : List ModalDetail
deriving Repr, DecidableEq

/-- Body of the popup confirmation loop (src/core/browser.py 499-539) for
one candidate. `_count_modals` and `_get_modal_details` catch internally
(returning 0 and the empty list), and `_close_any_modal` catches
everything it does, so after a successful click the body cannot raise. -/
def probe_popup (cand : PopupCandidate) (env : PopupProbeEnv) : Option ConfirmedPopup :=
  match env.lookup with
  | .error _ => none
  | .ok false => none
  | .ok true =>
    let before_modals := count_modals env.beforeModalsRaw
    match env.clickAct with
    | .error _ => none
    | .ok _ =>
      let after_modals := count_modals env.afterModalsRaw
      let modal_details := get_modal_details env.detailsRaw
      if popup_confirmed before_modals after_modals modal_details then
        some { info := cand
               popup_confirmed := true
               popup_details := modal_details }
      else none

/-- Whole-pass environment for `analyze_popup_elements`. -/
structure PopupPassEnv where
  /-- The preliminary `query_selector_all` call (its result is immediately
  overwritten by the script's, but a raise here still aborts the pass). -/
  preQuery : Except String Unit
  /-- The `page.evaluate(dynamic_popup_detection)` call. -/
  evalScan : Except String (List ScanElem)
  /-- Per-candidate probe outcomes, by candidate index. -/
  probes : Nat → PopupProbeEnv

/-- Embedding of `analyze_popup_elements`: run the detection script, cap
the trigger list at `MAX_POPUP_ELEMENTS`, probe each trigger in order, keep
the confirmed ones. A raise in either page call gives the empty list. -/
def analyze_popup_elements (env : PopupPassEnv) : List ConfirmedPopup :=
  match env.preQuery with
  | .error _ => []
  | .ok _ =>
    match env.evalScan with
    | .error _ => []
    | .ok clickables =>
      let potential := dynamic_popup_detection clickables
      ((potential.take MAX_POPUP_ELEMENTS).enum.filterMap
        (fun ci => probe_popup ci.2 (env.probes ci.1)))

/-! ## Gherkin generator (src/core/gherkin_generator.py)

The language-model call is the external Scenario Generator collaborator; it
is modelled as an `Except String String` outcome (raised, or the returned
text). Everything around it — the empty-input fallbacks, the output
cleaning, the re-raise — is repository code and is embedded below. -/

/-- First pass of `_clean_gherkin_output` (src/core/gherkin_generator.py
217-239): drop user-story and Background lines, with `skip_until_scenario`
threaded; Feature/Scenario headers stop the skipping; blank lines are never
kept (the append requires `line.strip()`); kept lines are right-trimmed. -/
def cleanLines : List String → Bool → List String
  | [], _ => []
  | line :: rest, skip =>
    let stripped := pyStrip line
    if pyStartsWith stripped "As a" || pyStartsWith stripped "I want"
        || pyStartsWith stripped "So that" then
      cleanLines rest true
    else if pyStartsWith stripped "Background:" then
      cleanLines rest true
    else
      let skip := if pyStartsWith stripped "Feature:" || pyStartsWith stripped "Scenario:"
        then false else skip
      if !skip && stripped ≠ "" then pyRstrip line :: cleanLines rest skip
      else cleanLines rest skip

/-- Second pass of `_clean_gherkin_output` (src/core/gherkin_generator.py
241-255): collapse runs of blank lines and insert a blank line after each
Feature header, with `prev_blank` threaded. -/
def spaceLines : List String → Bool → List String
  | [], _ => []
  | line :: rest, prevBlank =>
    if pyStrip line = "" then
      if !prevBlank then line :: spaceLines rest true
      else spaceLines rest true
    else
      if pyStartsWith (pyStrip line) "Feature:" then line :: "" :: spaceLines rest false
      else line :: spaceLines rest false

/-- Embedding of `_clean_gherkin_output(content)`. -/
def clean_gherkin_output (content : String) : String :=
  let content := pyReplace (pyReplace content "```gherkin" "") "```" ""
  let lines := pySplitNewline content
  let cleaned := cleanLines lines false
  let final := spaceLines cleaned false
  String.intercalate "\n" final

/-- Embedding of `_generate_generic_hover_feature(url)`. -/
def generate_generic_hover_feature (url : String) : String :=
  "Feature: Validate navigation menu functionality\n\n" ++
  "Scenario: Verify hover reveals dropdown menu\n" ++
  "  Given the user is on the \"" ++ url ++ "\" page\n" ++
  "  When the user hovers over a navigation menu item\n" ++
  "  Then a dropdown menu should appear\n" ++
  "  And the menu should contain clickable options\n\n" ++
  "Scenario: Verify navigation through dropdown menu\n" ++
  "  Given the user is on the \"" ++ url ++ "\" page\n" ++
  "  When the user hovers over a navigation menu item\n" ++
  "  And clicks a link from the dropdown\n" ++
  "  Then the page URL should change to the selected page"

/-- Embedding of `_generate_generic_popup_feature(url)`. -/
def generate_generic_popup_feature (url : String) : String :=
  "Feature: Validate pop-up functionality\n\n" ++
  "Scenario: Verify the cancel button in the pop-up\n" ++
  "  Given the user is on the \"" ++ url ++ "\" page\n" ++
  "  When the user clicks a button that triggers a pop-up\n" ++
  "  Then a pop-up should appear\n" ++
  "  And the user clicks the \"Cancel\" button\n" ++
  "  Then the pop-up should close and the user should remain on the same page\n\n" ++
  "Scenario: Verify the continue button in the pop-up\n" ++
  "  Given the user is on the \"" ++ url ++ "\" page\n" ++
  "  When the user clicks a button that triggers a pop-up\n" ++
  "  Then a pop-up should appear\n" ++
  "  And the user clicks the \"Continue\" button\n" ++
  "  Then the expected action should be performed"

/-- Embedding of `GherkinGenerator.generate_hover_features` (the
`hover_elements` payloads only matter through emptiness here, so the list
element type is left abstract): an empty element list short-circuits to the
generic feature without consulting the collaborator; otherwise the
collaborator's text is cleaned, and a collaborator raise is re-raised. -/
def generate_hover_features {α : Type} (url : String) (hover_elements : List α)
    (llmResult : Except String String) : Except String String :=
  if hover_elements.isEmpty then .ok (generate_generic_hover_feature url)
  else llmResult.map clean_gherkin_output

/-- Embedding of `GherkinGenerator.generate_popup_features`. -/
def generate_popup_features {α : Type} (url : String) (popup_elements : List α)
    (llmResult : Except String String) : Except String String :=
  if popup_elements.isEmpty then .ok (generate_generic_popup_feature url)
  else llmResult.map clean_gherkin_output

/-! ## Pipeline state machine (src/orchestrator.py)

The LangGraph workflow built by `build_workflow` is embedded as a driver
over the node functions actually wired into the graph: `create_task`,
`browser_analysis` (the subgraph), `generate_hover_features`,
`generate_popup_features`, `complete_task` and `handle_error`, with the
conditional routers between them. Each node returns the merged state (the
partial dictionary update applied to the incoming state) together with the
WebSocket updates it attempted, the durable-store writes it issued, and the
log lines the send sites produced. The browser and the language model are
driven through a `RunEnv` of operation outcomes; durable-store writes are
modelled as always succeeding (no claim under verification concerns a
storage failure). -/

/-- One message pushed to the Progress Sink (`send_ws_update` payload). The
`kind` field carries the payload's `type` key. -/
structure WsUpdate where
  kind : String
  task_id : Nat
  status : Option String
  progress : Option Nat
  current_step : Option String
  error : Option String
deriving Repr, DecidableEq

/-- One write issued to the durable store (the `db` collaborator). -/
inductive DbOp
  | create_task (url : String)
  | update_task_status (task_id : Nat) (status : String) (progress : Option Nat)
      (current_step : Option String) (error_message : Option String)
  | add_log (task_id : Nat) (level : String) (message : String)
  | save_feature (task_id : Nat) (feature_type : String) (content : String)
      (file_path : String)
  | save_dom_analysis (task_id : Nat) (hover_elements popup_elements : List String)
      (page_title : Option String)
deriving Repr, DecidableEq

/-- Page structure summary (`get_page_structure` result), reduced to the
field the orchestrator reads (`.get("title", "Unknown")`); `none` stands
for the empty dictionary the browser returns on an internal error. -/
structure PageStructure where
  title : Option String
deriving Repr, DecidableEq

/-- A generated feature artifact (`hover_features` / `popup_features`). -/
structure Artifact where
  content : String
  file : String
  path : String
deriving Repr, DecidableEq

/-- The result dictionary compiled by `complete_task_node`. -/
structure RunResult where
  task_id : Nat
  status : String
  url : String
  hover_feature : Option Artifact
  popup_feature : Option Artifact
  hover_elements : List String
  popup_elements : List String
  page_structure : Option PageStructure
deriving Repr, DecidableEq

/-- The `WorkflowState` TypedDict. The discovery payloads are opaque to the
state machine and are carried as plain strings. -/
structure WState where
  url : String
  task_id : Option Nat
  status : String
  progress : Nat
  current_step : String
  error_message : Option String
  browser_initialized : Bool
  page_structure : Option PageStructure
  hover_elements : Option (List String)
  popup_elements : Option (List String)
  hover_features : Option Artifact
  popup_features : Option Artifact
  result : Option RunResult
  logs : List String
deriving Repr, DecidableEq

/-- The initial state assembled by `TestGeneratorOrchestrator.generate_tests`. -/
def initial_state (url : String) : WState where
  url := url
  task_id := none
  status := "pending"
  progress := 0
  current_step := "Initializing"
  error_message := none
  browser_initialized := false
  page_structure := none
  hover_elements := none
  popup_elements := none
  hover_features := none
  popup_features := none
  result := none
  logs := []

/-- Outcomes of the run's external operations, in the order the steps
perform them. `create_err` is a raise inside `create_task_node`'s body
(`db.create_task`); `browser_err` a raise while launching the browser;
`nav_ok` the boolean `navigate_to_url` returns; the two `llm` fields the
Scenario Generator collaborator's outcome (raise, or returned text). -/
structure RunEnv where
  url : String
  task_id : Nat
  create_err : Option String
  browser_err : Option String
  nav_ok : Bool
  page_structure : PageStructure
  hover_elements : List String
  popup_elements : List String
  llm_hover : Except String String
  llm_popup : Except String String
  timestamp : String

/-- Embedding of `send_ws_update` (src/orchestrator.py 34-40): no manager
means no send; a raise from `manager.send_update` is caught here and turned
into a debug log line — nothing propagates to the caller. -/
def send_ws_update (manager : Option (WsUpdate → Except String Unit))
    (update : WsUpdate) : List String :=
  match manager with
  | none => []
  | some send =>
    match send update with
    | .ok _ => []
    | .error e => ["WebSocket update failed: " ++ e]

/-- The updates actually delivered to the sink: one attempt per
`send_ws_update` call when a manager is registered, none otherwise. -/
def ws_attempts (manager : Option (WsUpdate → Except String Unit))
    (update : WsUpdate) : List WsUpdate :=
  match manager with
  | none => []
  | some _ => [update]

/-- A node's outcome: merged state, sink deliveries attempted, durable
writes issued, and send-site log lines. -/
structure StepOut where
  state : WState
  ws : List WsUpdate
  db : List DbOp
  sink_logs : List String

/-- Sequencing of step outcomes: later state, concatenated traces. -/
def seqStep (a b : StepOut) : StepOut where
  state := b.state
  ws := a.ws ++ b.ws
  db := a.db ++ b.db
  sink_logs := a.sink_logs ++ b.sink_logs

/-- A progress-style sink payload, as every node but `handle_error` and
`complete_task` builds it. -/
def statusUpdate (tid : Nat) (progress : Nat) (step : String) : WsUpdate where
  kind := "status"
  task_id := tid
  status := some "running"
  progress := some progress
  current_step := some step
  error := none

/-- Embedding of `create_task_node` (src/orchestrator.py 84-119). -/
def create_task_node (env : RunEnv) (manager : Option (WsUpdate → Except String Unit))
    (s : WState) : StepOut :=
  match env.create_err with
  | some e =>
    let error_msg := "Failed to create task: " ++ e
    { state :=
        { s with
          status := "failed"
          error_message := some error_msg
          logs := s.logs ++ [error_msg] }
      ws := []
      db := []
      sink_logs := [] }
  | none =>
    let tid := env.task_id
    let u := statusUpdate tid 0 "Initializing browser"
    { state :=
        { s with
          task_id := some tid
          status := "running"
          progress := 5
          current_step := "Task created"
          logs := s.logs ++ ["Task " ++ toString tid ++ " created for " ++ s.url] }
      ws := ws_attempts manager u
      db := [.create_task s.url,
             .update_task_status tid "running" (some 0) (some "Initializing") none,
             .add_log tid "INFO" ("Starting test generation for " ++ s.url)]
      sink_logs := send_ws_update manager u }

/-- Embedding of `browser_analysis_subgraph` (src/orchestrator.py 526-627):
the single node owning the browser lifecycle. A launch raise or a failed
navigation is caught by the node's `except` and becomes a failed status
with the wrapped message; on success the analysis results are merged into
the state and persisted via `save_dom_analysis`. -/
def browser_analysis_subgraph (env : RunEnv)
    (manager : Option (WsUpdate → Except String Unit)) (s : WState) : StepOut :=
  let tid := s.task_id.getD 0
  let u10 := statusUpdate tid 10 "Launching browser"
  let db10 := DbOp.update_task_status tid "running" (some 10) (some "Launching browser") none
  match env.browser_err with
  | some e =>
    let error_msg := "Browser analysis error: " ++ e
    { state :=
        { s with
          status := "failed"
          error_message := some error_msg
          logs := s.logs ++ [error_msg] }
      ws := ws_attempts manager u10
      db := [db10]
      sink_logs := send_ws_update manager u10 }
  | none =>
    let u20 := statusUpdate tid 20 ("Loading " ++ s.url)
    let db20 := DbOp.update_task_status tid "running" (some 20)
      (some ("Loading " ++ s.url)) none
    if !env.nav_ok then
      let error_msg := "Browser analysis error: " ++ ("Failed to load URL: " ++ s.url)
      { state :=
          { s with
            status := "failed"
            error_message := some error_msg
            logs := s.logs ++ [error_msg] }
        ws := ws_attempts manager u10 ++ ws_attempts manager u20
        db := [db10, db20]
        sink_logs := send_ws_update manager u10 ++ send_ws_update manager u20 }
    else
      let title := env.page_structure.title.getD "Unknown"
      let u30 := statusUpdate tid 30 "Analyzing page structure"
      let u40 := statusUpdate tid 40 "Detecting hover elements"
      let u60 := statusUpdate tid 60 "Detecting popup/modal elements"
      { state :=
          { s with
            page_structure := some env.page_structure
            hover_elements := some env.hover_elements
            popup_elements := some env.popup_elements
            browser_initialized := true
            progress := 65
            current_step := "Browser analysis complete"
            logs := s.logs ++
              ["Page structure analyzed: " ++ title,
               "Found " ++ toString env.hover_elements.length ++ " hover elements",
               "Found " ++ toString env.popup_elements.length ++ " popup elements"] }
        ws := ws_attempts manager u10 ++ ws_attempts manager u20 ++ ws_attempts manager u30
          ++ ws_attempts manager u40 ++ ws_attempts manager u60
        db := [db10, db20,
               .add_log tid "INFO" ("Successfully loaded " ++ s.url),
               .update_task_status tid "running" (some 30) (some "Analyzing page structure") none,
               .add_log tid "INFO" ("Page structure analyzed: " ++ title),
               .update_task_status tid "running" (some 40) (some "Detecting hover elements") none,
               .add_log tid "INFO" ("Found " ++ toString env.hover_elements.length ++ " hover elements"),
               .update_task_status tid "running" (some 60) (some "Detecting popup/modal elements") none,
               .add_log tid "INFO" ("Found " ++ toString env.popup_elements.length ++ " popup elements"),
               .save_dom_analysis tid env.hover_elements env.popup_elements
                 env.page_structure.title]
        sink_logs := send_ws_update manager u10 ++ send_ws_update manager u20
          ++ send_ws_update manager u30 ++ send_ws_update manager u40
          ++ send_ws_update manager u60 }

/-- Embedding of `generate_hover_features_node` (src/orchestrator.py
250-302): progress update, Scenario Generator call through the repository's
`generate_hover_features`, artifact save; a raise becomes a failed status. -/
def generate_hover_features_node (env : RunEnv)
    (manager : Option (WsUpdate → Except String Unit)) (s : WState) : StepOut :=
  let tid := s.task_id.getD 0
  let hover_elements := s.hover_elements.getD []
  let u70 := statusUpdate tid 70 "Generating hover test scenarios"
  let db70 := DbOp.update_task_status tid "running" (some 70)
    (some "Generating hover test scenarios") none
  match generate_hover_features s.url hover_elements env.llm_hover with
  | .error e =>
    let error_msg := "Hover feature generation failed: " ++ e
    { state :=
        { s with
          status := "failed"
          error_message := some error_msg
          logs := s.logs ++ [error_msg] }
      ws := ws_attempts manager u70
      db := [db70, .add_log tid "ERROR" error_msg]
      sink_logs := send_ws_update manager u70 }
  | .ok content =>
    let hover_filename := "hover_tests_" ++ env.timestamp ++ ".feature"
    let hover_filepath := "outputs/" ++ hover_filename
    { state :=
        { s with
          hover_features := some ⟨content, hover_filename, hover_filepath⟩
          progress := 80
          current_step := "Hover features generated"
          logs := s.logs ++ ["Generated hover features: " ++ hover_filename] }
      ws := ws_attempts manager u70
      db := [db70,
             .save_feature tid "hover" content hover_filepath,
             .add_log tid "INFO" ("Generated hover features: " ++ hover_filename)]
      sink_logs := send_ws_update manager u70 }

/-- Embedding of `generate_popup_features_node` (src/orchestrator.py
305-357). The graph reaches this node through an unconditional edge, so it
also runs when the hover step already failed; its successful return carries
no `status` key, so a failed status survives the merge. -/
def generate_popup_features_node (env : RunEnv)
    (manager : Option (WsUpdate → Except String Unit)) (s : WState) : StepOut :=
  let tid := s.task_id.getD 0
  let popup_elements := s.popup_elements.getD []
  let u85 := statusUpdate tid 85 "Generating popup test scenarios"
  let db85 := DbOp.update_task_status tid "running" (some 85)
    (some "Generating popup test scenarios") none
  match generate_popup_features s.url popup_elements env.llm_popup with
  | .error e =>
    let error_msg := "Popup feature generation failed: " ++ e
    { state :=
        { s with
          status := "failed"
          error_message := some error_msg
          logs := s.logs ++ [error_msg] }
      ws := ws_attempts manager u85
      db := [db85, .add_log tid "ERROR" error_msg]
      sink_logs := send_ws_update manager u85 }
  | .ok content =>
    let popup_filename := "popup_tests_" ++ env.timestamp ++ ".feature"
    let popup_filepath := "outputs/" ++ popup_filename
    { state :=
        { s with
          popup_features := some ⟨content, popup_filename, popup_filepath⟩
          progress := 95
          current_step := "Popup features generated"
          logs := s.logs ++ ["Generated popup features: " ++ popup_filename] }
      ws := ws_attempts manager u85
      db := [db85,
             .save_feature tid "popup" content popup_filepath,
             .add_log tid "INFO" ("Generated popup features: " ++ popup_filename)]
      sink_logs := send_ws_update manager u85 }

/-- Embedding of `complete_task_node` (src/orchestrator.py 360-409). -/
def complete_task_node (manager : Option (WsUpdate → Except String Unit))
    (s : WState) : StepOut :=
  let tid := s.task_id.getD 0
  let u100 : WsUpdate :=
    { kind := "complete"
      task_id := tid
      status := some "completed"
      progress := some 100
      current_step := some "Test generation completed"
      error := none }
  let result : RunResult :=
    { task_id := tid
      status := "completed"
      url := s.url
      hover_feature := s.hover_features
      popup_feature := s.popup_features
      hover_elements := s.hover_elements.getD []
      popup_elements := s.popup_elements.getD []
      page_structure := s.page_structure }
  { state :=
      { s with
        status := "completed"
        progress := 100
        current_step := "Test generation completed"
        result := some result
        logs := s.logs ++ ["Task " ++ toString tid ++ " completed successfully"] }
    ws := ws_attempts manager u100
    db := [.update_task_status tid "completed" (some 100) (some "Test generation completed") none,
           .add_log tid "INFO" "Test generation completed successfully"]
    sink_logs := send_ws_update manager u100 }

/-- Embedding of `handle_error_node` (src/orchestrator.py 412-433): records
the failure when a task id exists, notifies the sink, terminates failed. -/
def handle_error_node (manager : Option (WsUpdate → Except String Unit))
    (s : WState) : StepOut :=
  let error_message := s.error_message.getD "Unknown error"
  match s.task_id with
  | some tid =>
    let u : WsUpdate :=
      { kind := "error"
        task_id := tid
        status := some "failed"
        progress := none
        current_step := none
        error := some error_message }
    { state :=
        { s with
          status := "failed"
          logs := s.logs ++ ["Error handled: " ++ error_message] }
      ws := ws_attempts manager u
      db := [.update_task_status tid "failed" none none (some error_message),
             .add_log tid "ERROR" error_message]
      sink_logs := send_ws_update manager u }
  | none =>
    { state :=
        { s with
          status := "failed"
          logs := s.logs ++ ["Error handled: " ++ error_message] }
      ws := []
      db := []
      sink_logs := [] }

/-- Router `after_create_task` (src/orchestrator.py 447-451). -/
def after_create_task (s : WState) : String :=
  if s.status = "failed" then "handle_error" else "browser_analysis"

/-- Router `after_browser_analysis` (src/orchestrator.py 454-458). -/
def after_browser_analysis (s : WState) : String :=
  if s.status = "failed" then "handle_error" else "generate_features"

/-- Router `after_feature_generation` (src/orchestrator.py 461-465). -/
def after_feature_generation (s : WState) : String :=
  if s.status = "failed" then "handle_error" else "complete"

/-- The workflow wiring of `build_workflow` (src/orchestrator.py 472-523),
run to a terminal node: entry at `create_task`; conditional edges after
`create_task`, `browser_analysis` and `generate_popup_features`; an
unconditional edge from `generate_hover_features` to
`generate_popup_features`; `complete_task` and `handle_error` terminal. -/
def run_workflow (env : RunEnv)
    (manager : Option (WsUpdate → Except String Unit)) : StepOut :=
  let o1 := create_task_node env manager (initial_state env.url)
  if after_create_task o1.state = "handle_error" then
    seqStep o1 (handle_error_node manager o1.state)
  else
    let o2 := seqStep o1 (browser_analysis_subgraph env manager o1.state)
    if after_browser_analysis o2.state = "handle_error" then
      seqStep o2 (handle_error_node manager o2.state)
    else
      let o3 := seqStep o2 (generate_hover_features_node env manager o2.state)
      let o4 := seqStep o3 (generate_popup_features_node env manager o3.state)
      if after_feature_generation o4.state = "handle_error" then
        seqStep o4 (handle_error_node manager o4.state)
      else
        seqStep o4 (complete_task_node manager o4.state)

/-! ## Verified properties -/

/-- C1: a hover candidate is confirmed iff the after-snapshot's
visible-interactive-element count strictly exceeds the before-snapshot's,
or the serialized-markup length differs; when both signals are unchanged
the diff never reports a change, and the confirmation of a probed candidate
(element found, hover performed) is exactly the diff's verdict. -/
theorem hover_confirmation_iff (before after : PageState) :
    (has_content_changed before after = true ↔
      (before.visible_elements.length < after.visible_elements.length ∨
        after.html_length ≠ before.html_length)) ∧
    (before.visible_elements.length = after.visible_elements.length →
      after.html_length = before.html_length →
      has_content_changed before after = false) ∧
    (∀ (cand : HoverCandidate) (b a : PageState) (r : Except String Unit),
      (probe_hover cand ⟨.ok true, .ok b, .ok (), .ok a, r⟩).isSome =
        has_content_changed b a) := by
  refine ⟨?_, ?_, ?_⟩
  · unfold has_content_changed
    split_ifs <;> simp_all
  · intro h1 h2
    unfold has_content_changed
    split_ifs <;> simp_all
  · intro cand b a r
    cases h : has_content_changed b a <;>
      simp [probe_hover, capture_page_state, h]

/-- The Revealed Elements list never exceeds five entries. -/
theorem get_revealed_elements_length_le (before after : PageState) :
    (get_revealed_elements before after).length ≤ 5 :=
  List.length_take_le 5 _

/-- No revealed element carries a text already visible before the hover. -/
theorem get_revealed_elements_fresh (before after : PageState) :
    ∀ e ∈ get_revealed_elements before after,
      e.text ∉ before.visible_elements.map (fun v => v.text) := by
  intro e he hmem
  have h2 : e ∈ after.visible_elements.filter
      (fun e => !((before.visible_elements.map (fun v => v.text)).contains e.text)
        && jsTruthy e.text) := List.mem_of_mem_take he
  have hf := List.of_mem_filter h2
  rw [Bool.and_eq_true, Bool.not_eq_true'] at hf
  have hc : (before.visible_elements.map (fun v => v.text)).contains e.text = true := by
    simpa using hmem
  rw [hf.1] at hc
  exact Bool.false_ne_true hc

/-- C2: the Revealed Elements list computed from a before/after snapshot
pair has at most five entries and contains no element whose text was
already among the before-snapshot's visible-element texts; consequently
every confirmed hover element the probe produces carries a revealed list
with both properties, relative to its own pre-hover snapshot. -/
theorem revealed_elements_bounded_and_fresh (before after : PageState) :
    ((get_revealed_elements before after).length ≤ 5 ∧
     ∀ e ∈ get_revealed_elements before after,
       e.text ∉ before.visible_elements.map (fun v => v.text)) ∧
    (∀ (cand : HoverCandidate) (env : HoverProbeEnv) (c : ConfirmedHover),
      probe_hover cand env = some c →
        c.revealed_elements.length ≤ 5 ∧
        ∀ e ∈ c.revealed_elements,
          e.text ∉ (capture_page_state env.beforeRaw).visible_elements.map
            (fun v => v.text)) := by
  refine ⟨⟨get_revealed_elements_length_le before after,
    get_revealed_elements_fresh before after⟩, ?_⟩
  intro cand env c h
  obtain ⟨lk, br, ha, ar, rs⟩ := env
  unfold probe_hover at h
  dsimp only at h ⊢
  cases lk with
  | error e => exact absurd h (by simp)
  | ok found =>
    cases found
    · exact absurd h (by simp)
    · cases ha with
      | error e => exact absurd h (by simp)
      | ok u =>
        dsimp only at h
        split at h
        · cases h
          exact ⟨get_revealed_elements_length_le _ _,
            get_revealed_elements_fresh _ _⟩
        · exact absurd h (by simp)

/-- C3: a probed popup candidate is confirmed iff the visible modal count
after the click strictly exceeds the count before, or the list of captured
modal descriptions is non-empty; the confirmation of a probed candidate
(element found, click performed) is exactly this predicate's verdict. -/
theorem popup_confirmation_iff (before_modals after_modals : Nat)
    (modal_details : List ModalDetail) :
    (popup_confirmed before_modals after_modals modal_details = true ↔
      (before_modals < after_modals ∨ modal_details ≠ [])) ∧
    (∀ (cand : PopupCandidate) (b a : Nat) (d : List ModalDetail),
      (probe_popup cand ⟨.ok true, .ok b, .ok (), .ok a, .ok d⟩).isSome =
        popup_confirmed b a d) := by
  constructor
  · simp [popup_confirmed]
  · intro cand b a d
    cases h : popup_confirmed b a d <;>
      simp [probe_popup, count_modals, get_modal_details, h]

/-- C10: the top-level analyzers are total functions into candidate lists
(their Lean types already exclude a propagated exception), and a pass whose
page evaluation raises — or, for the popup pass, whose preliminary selector
query raises — yields the empty list; a failed snapshot capture yields the
empty snapshot rather than an error. -/
theorem analyzers_total_and_empty_on_failure (e1 e2 e3 e4 : String)
    (probes1 : Nat → HoverProbeEnv) (probes2 : Nat → PopupProbeEnv)
    (scan : Except String (List ScanElem)) :
    analyze_hover_elements ⟨.error e1, probes1⟩ = [] ∧
    analyze_popup_elements ⟨.ok (), .error e2, probes2⟩ = [] ∧
    analyze_popup_elements ⟨.error e3, scan, probes2⟩ = [] ∧
    capture_page_state (.error e4) = { visible_elements := [], html_length := 0 } :=
  ⟨rfl, rfl, rfl, rfl⟩

/-- Locators emitted by the hover scan loop are pairwise distinct and avoid
everything already in the seen set. -/
theorem hoverScanLoop_xpath_nodup (els : List ScanElem) :
    ∀ seen : List String,
      ((hoverScanLoop els seen).map (fun c => c.xpath)).Nodup ∧
      ∀ x ∈ (hoverScanLoop els seen).map (fun c => c.xpath), x ∈ seen → False := by
  induction els with
  | nil => intro seen; simp [hoverScanLoop]
  | cons e rest ih =>
    intro seen
    unfold hoverScanLoop
    dsimp only
    split_ifs with h1 h2 h3 h4 h5
    · exact ih seen
    · exact ih seen
    · exact ih seen
    · exact ih seen
    · refine ⟨?_, ?_⟩
      · rw [List.map_cons, List.nodup_cons]
        refine ⟨?_, (ih (e.xpath :: seen)).1⟩
        intro hmem
        exact (ih (e.xpath :: seen)).2 _ hmem (by simp [mkHoverCandidate])
      · intro x hx hxseen
        rw [List.map_cons, List.mem_cons] at hx
        rcases hx with hx | hx
        · have hc : seen.contains e.xpath = true := by
            subst hx
            simpa [mkHoverCandidate, List.contains] using hxseen
          rw [hc] at h5
          exact h5 rfl
        · exact (ih (e.xpath :: seen)).2 _ hx (by simp [hxseen])
    · exact ih seen

/-- Locators emitted by the popup scan loop are pairwise distinct and avoid
everything already in the seen set. -/
theorem popupScanLoop_xpath_nodup (els : List ScanElem) :
    ∀ seen : List String,
      ((popupScanLoop els seen).map (fun c => c.xpath)).Nodup ∧
      ∀ x ∈ (popupScanLoop els seen).map (fun c => c.xpath), x ∈ seen → False := by
  induction els with
  | nil => intro seen; simp [popupScanLoop]
  | cons e rest ih =>
    intro seen
    unfold popupScanLoop
    dsimp only
    split_ifs with h1 h2 h3 h4
    · exact ih seen
    · exact ih seen
    · exact ih seen
    · refine ⟨?_, ?_⟩
      · rw [List.map_cons, List.nodup_cons]
        refine ⟨?_, (ih (e.xpath :: seen)).1⟩
        intro hmem
        exact (ih (e.xpath :: seen)).2 _ hmem (by simp [mkPopupCandidate])
      · intro x hx hxseen
        rw [List.map_cons, List.mem_cons] at hx
        rcases hx with hx | hx
        · have hc : seen.contains e.xpath = true := by
            subst hx
            simpa [mkPopupCandidate, List.contains] using hxseen
          rw [hc] at h4
          exact h4 rfl
        · exact (ih (e.xpath :: seen)).2 _ hx (by simp [hxseen])
    · exact ih seen

/-- C4: the one-pass static scans emit at most 50 hover candidates and at
most 30 popup candidates, and within each emitted list no two candidates
share a locator string. -/
theorem static_scan_caps_and_dedup (allElements clickables : List ScanElem) :
    (dynamic_hover_detection allElements).length ≤ 50 ∧
    ((dynamic_hover_detection allElements).map (fun c => c.xpath)).Nodup ∧
    (dynamic_popup_detection clickables).length ≤ 30 ∧
    ((dynamic_popup_detection clickables).map (fun c => c.xpath)).Nodup := by
  refine ⟨List.length_take_le 50 _, ?_, List.length_take_le 30 _, ?_⟩
  · unfold dynamic_hover_detection
    rw [List.map_take]
    exact (List.take_sublist 50 _).nodup (hoverScanLoop_xpath_nodup allElements []).1
  · unfold dynamic_popup_detection
    rw [List.map_take]
    exact (List.take_sublist 30 _).nodup (popupScanLoop_xpath_nodup clickables []).1

/-- The suffix convention of the emitted path component is exactly the
1-based same-tag ordinal with the ordinal-one default omitted. -/
theorem xpathComponent_eq_specComponent (siblings : List DomNode) (i : Nat)
    (c : DomNode) : xpathComponent siblings i c = specComponent siblings i c := by
  unfold xpathComponent specComponent siblingOrdinal
  dsimp only
  cases h : prevSameTagCount siblings i c.tag with
  | zero => simp
  | succ k =>
    rw [if_pos (by omega), if_neg (by omega)]

/-- A resolvable node always has structural path components. -/
theorem xpathParts_total (path : List Nat) :
    ∀ root n : DomNode, nodeAt root path = some n →
      ∃ ps, xpathParts root path = some ps := by
  induction path with
  | nil => exact fun root n _ => ⟨[], rfl⟩
  | cons i rest ih =>
    intro root n h
    cases hc : root.children[i]? with
    | none => simp [nodeAt, hc] at h
    | some c =>
      simp only [nodeAt, hc] at h
      obtain ⟨ps, hps⟩ := ih c n h
      refine ⟨xpathComponent root.children i c :: ps, ?_⟩
      simp only [xpathParts, hc, hps, Option.map_some']

/-- C8: the locator function is total on resolvable nodes; a node with a
truthy `id` gets the direct id-based reference; a node without one gets the
root-anchored structural path whose per-ancestor components record the
lower-cased tag name and the 1-based same-tag ordinal (rendered with the
XPath default — the `[1]` suffix omitted for a first same-tag sibling); and
the function is a pure function of the document and the node's position, so
two calls on the same node in an unchanged document are the same term and
yield identical strings. -/
theorem getXPath_locator (root : DomNode) (path : List Nat) (n : DomNode)
    (h : nodeAt root path = some n) :
    (getXPath root path).isSome = true ∧
    (n.id ≠ "" → getXPath root path = some ("//*[@id=\"" ++ n.id ++ "\"]")) ∧
    (n.id = "" → ∃ ps, xpathParts root path = some ps ∧
      getXPath root path =
        some ("/" ++ String.intercalate "/" (jsToLower root.tag :: ps))) ∧
    (∀ (siblings : List DomNode) (i : Nat) (c : DomNode),
      xpathComponent siblings i c = specComponent siblings i c) ∧
    getXPath root path = getXPath root path := by
  by_cases hid : n.id = ""
  · obtain ⟨ps, hps⟩ := xpathParts_total path root n h
    have hx : getXPath root path =
        some ("/" ++ String.intercalate "/" (jsToLower root.tag :: ps)) := by
      simp only [getXPath, h, hid, hps]
      simp
    refine ⟨by simp [hx], fun hne => absurd hid hne, ?_,
      xpathComponent_eq_specComponent, rfl⟩
    exact fun _ => ⟨ps, hps, hx⟩
  · have hx : getXPath root path = some ("//*[@id=\"" ++ n.id ++ "\"]") := by
      simp only [getXPath, h]
      rw [if_pos hid]
    refine ⟨by simp [hx], fun _ => hx, fun he => absurd he hid, ?_, rfl⟩
    exact xpathComponent_eq_specComponent

/-- A concrete document for the locator theorem: html containing a body
with two div children; the addressed node is the second div. -/
def exampleDoc : DomNode :=
  ⟨"HTML", "", [⟨"BODY", "", [⟨"DIV", "", []⟩, ⟨"DIV", "", []⟩]⟩]⟩

/-- Witness for C8 at a concrete document: the second body div resolves,
the theorem applies, and the computed locator is the expected structural
path with the 1-based ordinal of the second div. -/
theorem getXPath_locator_witness :
    nodeAt exampleDoc [0, 1] = some ⟨"DIV", "", []⟩ ∧
    (getXPath exampleDoc [0, 1]).isSome = true ∧
    getXPath exampleDoc [0, 1] = some "/html/body/div[2]" := by
  refine ⟨rfl, (getXPath_locator exampleDoc [0, 1] ⟨"DIV", "", []⟩ rfl).1, ?_⟩
  decide

/-- Detector for persisted Discovery Results among durable writes. -/
def DbOp.isSaveDomAnalysis : DbOp → Bool
  | .save_dom_analysis _ _ _ _ => true
  | _ => false

/-- Detector for a saved feature artifact of a given category. -/
def DbOp.isSaveFeature (cat : String) : DbOp → Bool
  | .save_feature _ c _ _ => c = cat
  | _ => false

/-- C5: when navigation fails (the navigate step reports an unloadable
target), the run terminates with status `failed` and a non-empty error
message, no Discovery Result reaches the run state (no page structure, no
element lists, no final result), and no Discovery Result is persisted (the
durable trace holds no `save_dom_analysis` write and no saved feature). -/
theorem navigation_failure_fails_run (url : String) (tid : Nat)
    (ps : PageStructure) (he pe : List String) (gh gp : Except String String)
    (ts : String) (manager : Option (WsUpdate → Except String Unit)) :
    let env : RunEnv := ⟨url, tid, none, none, false, ps, he, pe, gh, gp, ts⟩
    let out := run_workflow env manager
    out.state.status = "failed" ∧
    out.state.result = none ∧
    out.state.page_structure = none ∧
    out.state.hover_elements = none ∧
    out.state.popup_elements = none ∧
    out.state.error_message =
      some ("Browser analysis error: " ++ ("Failed to load URL: " ++ url)) ∧
    (∀ m, out.state.error_message = some m → m ≠ "") ∧
    out.db.all (fun op => ! op.isSaveDomAnalysis) = true ∧
    out.db.all (fun op => ! (op.isSaveFeature "hover" || op.isSaveFeature "popup")) = true := by
  intro env out
  refine ⟨rfl, rfl, rfl, rfl, rfl, rfl, ?_, ?_, ?_⟩
  · intro m hm hemp
    have : out.state.error_message = some m := hm
    rw [show out.state.error_message =
        some ("Browser analysis error: " ++ ("Failed to load URL: " ++ url)) from rfl] at this
    have hlen := congrArg String.length (Option.some_injective _ this)
    rw [hemp] at hlen
    simp [String.length_append] at hlen
    exact absurd hlen.1 (by decide)
  · cases manager <;> rfl
  · cases manager <;> rfl

/-- A concrete run in which the Scenario Generator returns empty text for
both categories while discovery found elements. -/
def emptyGenEnv : RunEnv where
  url := "http://example.test"
  task_id := 1
  create_err := none
  browser_err := none
  nav_ok := true
  page_structure := ⟨some "Example"⟩
  hover_elements := ["Store"]
  popup_elements := ["Sign Up"]
  llm_hover := .ok ""
  llm_popup := .ok ""
  timestamp := "20250101_000000"

/-- C6 counterexample: a Scenario Generator that returns empty text does
not fail the run. The repository's output cleaning maps empty text to
empty text, the generation wrapper passes it through as a success, and the
run completes with status `completed`, an empty saved hover artifact and no
error — contradicting the claim that an empty return fails the run at that
step. -/
theorem generation_empty_text_completes :
    clean_gherkin_output "" = "" ∧
    generate_hover_features "http://example.test" ["Store"] (.ok "") = .ok "" ∧
    (run_workflow emptyGenEnv none).state.status = "completed" ∧
    (run_workflow emptyGenEnv none).state.error_message = none ∧
    (run_workflow emptyGenEnv none).state.hover_features =
      some ⟨"", "hover_tests_20250101_000000.feature",
        "outputs/hover_tests_20250101_000000.feature"⟩ := by
  exact ⟨by decide, rfl, by decide, rfl, by decide⟩

/-- C6 (amended): when the Scenario Generator raises, the run fails at that
step — a popup-generation raise (with a non-empty popup list, so the
generator is actually consulted) leaves the run failed with that step's
error message, while the hover artifact saved by the previously completed
step survives in the final state and in the durable trace; a hover-side
raise likewise leaves the run failed. A generator that merely returns empty
text is not a failure (see the counterexample): the empty text is cleaned,
saved and the run completes. -/
theorem generation_raise_fails_run_artifacts_retained (url : String) (tid : Nat)
    (ps : PageStructure) (he : List String) (p : String) (pr : List String)
    (hText e : String) (ts : String)
    (h2 : String) (hs2 pe2 : List String) (e2 : String)
    (gp : Except String String)
    (manager : Option (WsUpdate → Except String Unit)) :
    let envP : RunEnv := ⟨url, tid, none, none, true, ps, he, p :: pr, .ok hText, .error e, ts⟩
    let outP := run_workflow envP manager
    outP.state.status = "failed" ∧
    outP.state.error_message = some ("Popup feature generation failed: " ++ e) ∧
    outP.state.hover_features.isSome = true ∧
    outP.db.any (DbOp.isSaveFeature "hover") = true ∧
    (run_workflow ⟨url, tid, none, none, true, ps, h2 :: hs2, pe2, .error e2, gp, ts⟩
      manager).state.status = "failed" := by
  intro envP outP
  refine ⟨?_, ?_, ?_, ?_, ?_⟩
  · cases he <;> cases manager <;> rfl
  · cases he <;> cases manager <;> rfl
  · cases he <;> cases manager <;> rfl
  · cases he <;> cases manager <;> rfl
  · cases pe2 <;> cases gp <;> cases manager <;> rfl

/-- C7: on a successful run (task created, browser launched, navigation
succeeded, both generations returned), the progress values delivered to the
Progress Sink are, in emission order, 0, 10, 20, 30, 40, 60, 70, 85, 100 —
monotonically non-decreasing with final value exactly 100. -/
theorem progress_nondecreasing_ends_at_100 (url : String) (tid : Nat)
    (ps : PageStructure) (he pe : List String) (hText pText ts : String)
    (send : WsUpdate → Except String Unit) :
    let env : RunEnv := ⟨url, tid, none, none, true, ps, he, pe, .ok hText, .ok pText, ts⟩
    let progressValues :=
      (run_workflow env (some send)).ws.filterMap (fun u => u.progress)
    progressValues = [0, 10, 20, 30, 40, 60, 70, 85, 100] ∧
    List.Chain' (· ≤ ·) progressValues ∧
    progressValues.getLast? = some 100 := by
  intro env progressValues
  have h : progressValues = [0, 10, 20, 30, 40, 60, 70, 85, 100] := by
    cases he <;> cases pe <;> rfl
  refine ⟨h, ?_, by rw [h]; decide⟩
  rw [h]
  norm_num [List.chain'_cons]

set_option maxHeartbeats 3200000 in
/-- C9: Progress Sink delivery is fire-and-forget. For any run, swapping
one sink behavior for another (including one that raises on every send)
changes neither the final run state, nor the durable writes, nor the
sequence of updates handed to the sink; removing the sink entirely changes
neither the state nor the writes. The delivery error is caught inside
`send_ws_update` and surfaces only as that send site's log line. -/
theorem sink_failure_never_fails_step (env : RunEnv)
    (f g : WsUpdate → Except String Unit) :
    ((run_workflow env (some f)).state = (run_workflow env (some g)).state ∧
     (run_workflow env (some f)).db = (run_workflow env (some g)).db ∧
     (run_workflow env (some f)).ws = (run_workflow env (some g)).ws) ∧
    ((run_workflow env none).state = (run_workflow env (some f)).state ∧
     (run_workflow env none).db = (run_workflow env (some f)).db) ∧
    (∀ u, send_ws_update (some f) u =
      match f u with
      | .ok _ => []
      | .error e => ["WebSocket update failed: " ++ e]) := by
  obtain ⟨url, tid, ce, be, nv, ps, he, pe, gh, gp, ts⟩ := env
  refine ⟨⟨?_, ?_, ?_⟩, ⟨?_, ?_⟩, fun u => rfl⟩ <;>
    cases ce <;> cases be <;> cases nv <;> cases gh <;> cases gp <;>
      cases he <;> cases pe <;> rfl
